import Mathlib

set_option autoImplicit false

/-!
Shallow embedding of the xtractor chunked-scraping core:
`init_search_job` and `process_batch` from `app/routes/scraper.py`,
`check_existing_business` (same file), the `SearchJob` / `ScrapedData`
store operations from `app/models/search_job_pg.py` and
`app/models/scraped_data_pg.py`, and `is_google_maps_search_url` plus the
extraction-method signatures from `app/services/scraper.py`.

External effects (selenium navigation, field lookups, database failures)
are supplied by an environment `BatchEnv`; the functions additionally
return a trace of the externally visible operations they performed.
-/

namespace Xtractor

/-- Item status as stored in `SearchJob.items` JSON: pending / completed / failed. -/
inductive ItemStatus where
  | pending
  | completed
  | failed
deriving DecidableEq, Repr

/-- One entry of `job['items']`: `{'name': ..., 'url': ..., 'status': ...}`. -/
structure Item where
  name : String
  url : String
  status : ItemStatus
deriving DecidableEq, Repr

/-- A row of the `search_jobs` table (the fields the route reads and writes). -/
structure SearchJob where
  user_id : Nat
  search_url : String
  status : String
  items : List Item
  total_items : Nat
  processed_items : Nat
deriving DecidableEq, Repr

/-- A row of the `scraped_data` table (the fields `process_batch` writes). -/
structure ScrapedRecord where
  user_id : Nat
  company_name : String
  website_url : String
  source_url : String
  phone : Option String
  address : Option String
  email : Option String
deriving DecidableEq, Repr

/-- The persistent state the two endpoints touch: the job row under
processing and the owner's `scraped_data` rows, newest first
(matching `ORDER BY created_at DESC`; `ScrapedData.create` prepends). -/
structure Store where
  job : SearchJob
  records : List ScrapedRecord
deriving DecidableEq, Repr

/-- Outcome of one external call site: the callee returned a value
(possibly `None`), or the call raised an exception. -/
inductive FieldOutcome where
  | ok : Option String → FieldOutcome
  | exc
deriving DecidableEq, Repr

/-- The per-field `try/except` wrappers in `process_batch`: an exception is
swallowed and the local variable keeps its `None` initialisation. -/
def fieldValue : FieldOutcome → Option String
  | .ok v => v
  | .exc => none

/-- Does `small` occur at the head of `big`? (character-list helper). -/
def charsLead : List Char → List Char → Bool
  | [], _ => true
  | _ :: _, [] => false
  | a :: as, b :: bs => a == b && charsLead as bs

/-- Does `needle` occur anywhere inside the character list? -/
def charsHave (needle : List Char) : List Char → Bool
  | [] => needle.isEmpty
  | c :: cs => charsLead needle (c :: cs) || charsHave needle cs

/-- Python's `needle in hay` on strings. -/
def strHas (hay needle : String) : Bool := charsHave needle.toList hay.toList

/-- ASCII case folding of one character (Python's `str.lower` restricted to
the ASCII range, which is all that URL classification relies on). -/
def pyLowerChar (c : Char) : Char :=
  if 'A' ≤ c && c ≤ 'Z' then Char.ofNat (c.toNat + 32) else c

/-- `url.lower()` (ASCII). -/
def pyLower (s : String) : String := String.mk (s.toList.map pyLowerChar)

/-- `is_google_maps_search_url` from `app/services/scraper.py`. -/
def is_google_maps_search_url (url : String) : Bool :=
  if url == "" then false
  else
    let u := pyLower url
    if strHas u "google.com/maps/search" then true
    else if strHas u "google.com/maps" then
      strHas u "query=" || strHas u "q=" || strHas u "data="
    else false

/-- Declared parameter list of
`GoogleMapsSearchScraper.extract_phone_from_business_page(self, business_url)`
in `app/services/scraper.py` (no `**kwargs`). -/
def extract_phone_from_business_page_params : List String := ["self", "business_url"]

/-- Declared parameter list of
`GoogleMapsSearchScraper.extract_address_from_business_page(self, business_url)`. -/
def extract_address_from_business_page_params : List String := ["self", "business_url"]

/-- Declared parameter list of
`GoogleMapsSearchScraper.extract_website_from_business_page(self, business_url)`. -/
def extract_website_from_business_page_params : List String := ["self", "business_url"]

/-- Declared parameter list of
`GoogleMapsSearchScraper.extract_email_from_website(self, website_url)`. -/
def extract_email_from_website_params : List String := ["self", "website_url"]

/-- Python call semantics for `f(pos_args, kw=value)` against a `def` without
`**kwargs`: when `kw` is not among the declared parameter names the call
raises `TypeError` before the callee body runs; otherwise the body's
outcome is returned. -/
def callWithKeyword (params : List String) (kw : String) (body : FieldOutcome) : FieldOutcome :=
  if params.contains kw then body else .exc

/-- `ScrapedData.find_by_user_id(user_id, limit)`: the owner's rows, newest
first, truncated to `limit`. -/
def find_by_user_id (records : List ScrapedRecord) (user_id : Nat) (limit : Nat) :
    List ScrapedRecord :=
  (records.filter (fun r => r.user_id == user_id)).take limit

/-- `check_existing_business` from `app/routes/scraper.py`: scans at most the
1000 most recent rows of the owner for one with the same `company_name` and
`website_url`; any exception from the store lookup is caught and `None`
returned. -/
def check_existing_business (records : List ScrapedRecord) (lookupFails : Bool)
    (user_id : Nat) (company_name website_url : String) : Option ScrapedRecord :=
  if lookupFails then none
  else (find_by_user_id records user_id 1000).find?
    (fun r => r.company_name == company_name && r.website_url == website_url)

/-- Environment of one `process_batch` call: outcomes of every external
interaction the route performs. `listingNavOk` is driver setup plus
navigation to the Google Maps page; the four `…Site` fields are the
outcomes of the four extraction call sites; the `…Fails` flags make the
corresponding store operation raise. -/
structure BatchEnv where
  listingNavOk : Bool
  phoneSite : FieldOutcome
  addressSite : FieldOutcome
  websiteSite : FieldOutcome
  emailSite : FieldOutcome
  skip_email : Bool
  probeLookupFails : Bool
  createFails : Bool
  updateFails : Bool
  updateRetryFails : Bool
deriving DecidableEq, Repr

/-- Value of one listing-stage field variable after STEP 1: if navigation
failed the lookup never ran and the variable is still `None`; otherwise the
per-field handler maps an exception to `None`. -/
def listingField (nav : Bool) (o : FieldOutcome) : Option String :=
  if nav then fieldValue o else none

/-- The guard of STEP 2:
`if not skip_email and website and 'google.com' not in website and 'goo.gl' not in website`. -/
def emailGuard (skip : Bool) (website : Option String) : Bool :=
  match website with
  | none => false
  | some w => !skip && w != "" && !strHas w "google.com" && !strHas w "goo.gl"

/-- `final_website = website if (website and 'google.com' not in website) else None`. -/
def finalWebsite (website : Option String) : Option String :=
  match website with
  | none => none
  | some w => if w != "" && !strHas w "google.com" then some w else none

/-- The `business_data` dict assembled by `process_batch`. -/
def businessData (job : SearchJob) (item : Item)
    (phone address email website : Option String) : ScrapedRecord :=
  { user_id := job.user_id
    company_name := item.name
    website_url := (finalWebsite website).getD item.url
    source_url := job.search_url
    phone := phone
    address := address
    email := email }

/-- The website value held by the `website` local after STEP 1. -/
def effectiveWebsite (env : BatchEnv) : Option String :=
  listingField env.listingNavOk env.websiteSite

/-- The `business_data` produced by one `process_batch` call on `item`,
as a function of the call's environment. -/
def batchBusiness (env : BatchEnv) (job : SearchJob) (item : Item) : ScrapedRecord :=
  businessData job item
    (listingField env.listingNavOk env.phoneSite)
    (listingField env.listingNavOk env.addressSite)
    (if emailGuard env.skip_email (effectiveWebsite env) then fieldValue env.emailSite else none)
    (effectiveWebsite env)

/-- The scan `for i, item in enumerate(items): if item['status'] == 'pending'`. -/
def findFirstPending : List Item → Option (Nat × Item)
  | [] => none
  | it :: rest =>
    if it.status = ItemStatus.pending then some (0, it)
    else
      match findFirstPending rest with
      | some (i, x) => some (i + 1, x)
      | none => none

/-- Externally visible operations of one `process_batch` call, in order.
Store-write events are recorded only when the write succeeded; the
extraction events record that the corresponding external call ran. -/
inductive Ev where
  | listingNav
  | lookupPhone
  | lookupAddress
  | lookupWebsite
  | emailNav
  | recordProbe
  | recordCreate : ScrapedRecord → Ev
  | jobSave : Nat → Option String → Ev
deriving DecidableEq, Repr

/-- The JSON body `process_batch` answers with: `ok` is HTTP 200 versus the
500 error path, `completed` and `processedOut` the corresponding keys
(absent keys modelled as `false` / `none`), `results` the list of
business dicts of this call. -/
structure BatchResponse where
  ok : Bool
  completed : Bool
  processedOut : Option Nat
  results : List ScrapedRecord
deriving DecidableEq, Repr

/-- Result of one `process_batch` call: the persisted state afterwards, the
response, and the trace of external operations. -/
structure BatchOut where
  store : Store
  resp : BatchResponse
  trace : List Ev
deriving DecidableEq, Repr

/-- The 500 response of the outer `except` handler. -/
def errResp : BatchResponse :=
  { ok := false, completed := false, processedOut := none, results := [] }

/-- Extraction events of STEP 1: when driver setup and navigation succeed the
three lookups all run (each in its own `try`); otherwise none of them runs. -/
def listingTrace (nav : Bool) : List Ev :=
  if nav then [Ev.listingNav, Ev.lookupPhone, Ev.lookupAddress, Ev.lookupWebsite] else []

/-- Extraction event of STEP 2, which runs only when its guard holds. -/
def emailTrace (env : BatchEnv) : List Ev :=
  if emailGuard env.skip_email (effectiveWebsite env) then [Ev.emailNav] else []

/-- The dedup probe of this call: `check_existing_business` applied to the
keys of the `business_data` about to be saved. -/
def batchProbe (env : BatchEnv) (st : Store) (item : Item) : Option ScrapedRecord :=
  check_existing_business st.records env.probeLookupFails st.job.user_id
    (batchBusiness env st.job item).company_name (batchBusiness env st.job item).website_url

/-- Whether `ScrapedData.create` runs and succeeds: the probe found nothing
and the insert does not raise. -/
def batchCreated (env : BatchEnv) (st : Store) (item : Item) : Bool :=
  (batchProbe env st item).isNone && !env.createFails

/-- The owner's `scraped_data` rows after the save block of this call. -/
def batchRecords (env : BatchEnv) (st : Store) (item : Item) : List ScrapedRecord :=
  if batchCreated env st item then batchBusiness env st.job item :: st.records else st.records

/-- Store events of the save block: the probe always runs; the create event
is recorded only when the insert succeeded. -/
def saveTrace (env : BatchEnv) (st : Store) (item : Item) : List Ev :=
  if batchCreated env st item then
    [Ev.recordProbe, Ev.recordCreate (batchBusiness env st.job item)]
  else [Ev.recordProbe]

/-- The status written on the success path:
`'completed' if new_processed_count >= job['total_items'] else 'active'`. -/
def successStatus (job : SearchJob) : String :=
  if job.total_items ≤ job.processed_items + 1 then "completed" else "active"

/-- `process_batch` from `app/routes/scraper.py` (the `/batch` endpoint),
with the job row already fetched into `st.job`.
Path structure follows the source: early return on a completed job;
completing transition when no pending item remains; otherwise the listing
stage, the conditional email stage, the dedup probe plus conditional
`ScrapedData.create` (its own `try/except` swallows create failures),
marking the item completed, and `SearchJob.update_progress` — whose
failure lands in the outer `except`, which re-marks the item failed and
retries `update_progress` without a status argument. -/
def process_batch (env : BatchEnv) (st : Store) : BatchOut :=
  if st.job.status = "completed" then
    { store := st
      resp := { ok := true, completed := true, processedOut := none, results := [] }
      trace := [] }
  else
    match findFirstPending st.job.items with
    | none =>
      if env.updateFails then
        { store := st, resp := errResp, trace := [] }
      else
        { store := { st with job := { st.job with status := "completed" } }
          resp := { ok := true, completed := true, processedOut := none, results := [] }
          trace := [Ev.jobSave st.job.processed_items (some "completed")] }
    | some (i, item) =>
      if env.updateFails then
        if env.updateRetryFails then
          { store := { st with records := batchRecords env st item }
            resp := errResp
            trace := listingTrace env.listingNavOk ++ emailTrace env ++ saveTrace env st item }
        else
          { store :=
              { job := { st.job with
                  items := st.job.items.set i { item with status := ItemStatus.failed }
                  processed_items := st.job.processed_items + 1 }
                records := batchRecords env st item }
            resp := errResp
            trace := listingTrace env.listingNavOk ++ emailTrace env ++ saveTrace env st item ++
              [Ev.jobSave (st.job.processed_items + 1) none] }
      else
        { store :=
            { job := { st.job with
                items := st.job.items.set i { item with status := ItemStatus.completed }
                processed_items := st.job.processed_items + 1
                status := successStatus st.job }
              records := batchRecords env st item }
          resp := { ok := true, completed := successStatus st.job == "completed"
                    processedOut := some (st.job.processed_items + 1)
                    results := [batchBusiness env st.job item] }
          trace := listingTrace env.listingNavOk ++ emailTrace env ++ saveTrace env st item ++
            [Ev.jobSave (st.job.processed_items + 1) (some (successStatus st.job))] }

/-- The environment `process_batch` actually runs under when its callee is
the repository's own `GoogleMapsSearchScraper`: each extraction call site
passes `driver=...`, so its outcome is `callWithKeyword` of the method's
declared parameters applied to what the body would have produced. -/
def routeEnv (nav : Bool) (phoneBody addressBody websiteBody emailBody : FieldOutcome)
    (skip lookupF createF updateF retryF : Bool) : BatchEnv :=
  { listingNavOk := nav
    phoneSite := callWithKeyword extract_phone_from_business_page_params "driver" phoneBody
    addressSite := callWithKeyword extract_address_from_business_page_params "driver" addressBody
    websiteSite := callWithKeyword extract_website_from_business_page_params "driver" websiteBody
    emailSite := callWithKeyword extract_email_from_website_params "driver" emailBody
    skip_email := skip
    probeLookupFails := lookupF
    createFails := createF
    updateFails := updateF
    updateRetryFails := retryF }

/-- One discovered business: `{'name': ..., 'url': ...}`. -/
structure Business where
  name : String
  url : String
deriving DecidableEq, Repr

/-- The item built by `init_search_job` for one discovered business. -/
def pendingItem (b : Business) : Item :=
  { name := b.name, url := b.url, status := ItemStatus.pending }

/-- Result of `init_search_job`: the sequence of `SearchJob.create` writes
it performed and whether it answered 201. -/
structure InitOut where
  writes : List SearchJob
  ok : Bool
deriving DecidableEq, Repr

/-- `init_search_job` from `app/routes/scraper.py` (the `/init` endpoint),
with the discovery result (`extract_businesses_with_names`) supplied as
`discovered`. Invalid URL → 400 without discovery; empty discovery → 404
with no write; otherwise one `SearchJob.create` write, which hardcodes
`status='pending'` and leaves `processed_items` at its column default 0. -/
def init_search_job (user_id : Nat) (url : String) (discovered : List Business) : InitOut :=
  if !is_google_maps_search_url url then { writes := [], ok := false }
  else if discovered.isEmpty then { writes := [], ok := false }
  else
    let items := discovered.map pendingItem
    { writes := [{ user_id := user_id
                   search_url := url
                   status := "pending"
                   items := items
                   total_items := items.length
                   processed_items := 0 }]
      ok := true }

/-- Count of items whose status is terminal (not pending). -/
def countNonPending (items : List Item) : Nat :=
  items.countP (fun it => it.status != ItemStatus.pending)

/-- The spec's Job state invariant:
`processedItems == count(items where status != pending)` and
`status == completed ⟺ processedItems == totalItems`. -/
def JobInv (j : SearchJob) : Prop :=
  j.processed_items = countNonPending j.items ∧
    (j.status = "completed" ↔ j.processed_items = j.total_items)

/-! Auxiliary lemmas about the item scan and the non-pending count. -/

theorem findFirstPending_spec {items : List Item} {i : Nat} {it : Item}
    (h : findFirstPending items = some (i, it)) :
    items[i]? = some it ∧ it.status = ItemStatus.pending := by
  induction items generalizing i with
  | nil => simp [findFirstPending] at h
  | cons a rest ih =>
    by_cases ha : a.status = ItemStatus.pending
    · rw [findFirstPending, if_pos ha] at h
      simp only [Option.some.injEq, Prod.mk.injEq] at h
      obtain ⟨rfl, rfl⟩ := h
      exact ⟨by simp, ha⟩
    · rw [findFirstPending, if_neg ha] at h
      cases hr : findFirstPending rest with
      | none => rw [hr] at h; cases h
      | some p =>
        obtain ⟨j, x⟩ := p
        rw [hr] at h
        simp only [Option.some.injEq, Prod.mk.injEq] at h
        obtain ⟨rfl, rfl⟩ := h
        simpa using ih hr

theorem findFirstPending_none {items : List Item}
    (h : findFirstPending items = none) : countNonPending items = items.length := by
  induction items with
  | nil => simp [countNonPending]
  | cons a rest ih =>
    rw [findFirstPending] at h
    by_cases ha : a.status = ItemStatus.pending
    · rw [if_pos ha] at h; cases h
    · rw [if_neg ha] at h
      cases hr : findFirstPending rest with
      | none =>
        have h2 := ih hr
        unfold countNonPending at h2 ⊢
        rw [List.countP_cons]
        have ha' : (a.status != ItemStatus.pending) = true := by
          simp [bne_iff_ne, ha]
        rw [ha']
        simp [h2]
      | some p => obtain ⟨j, x⟩ := p; rw [hr] at h; cases h

theorem countNonPending_set {items : List Item} {i : Nat} {it x : Item}
    (hget : items[i]? = some it) (hpend : it.status = ItemStatus.pending)
    (hx : x.status ≠ ItemStatus.pending) :
    countNonPending (items.set i x) = countNonPending items + 1 := by
  induction items generalizing i with
  | nil => simp at hget
  | cons a rest ih =>
    cases i with
    | zero =>
      simp only [List.getElem?_cons_zero, Option.some.injEq] at hget
      subst hget
      simp [countNonPending, List.countP_cons, bne_iff_ne, hpend, hx]
    | succ n =>
      simp only [List.getElem?_cons_succ] at hget
      have := ih hget
      simp only [List.set_cons_succ, countNonPending, List.countP_cons] at this ⊢
      omega

theorem countNonPending_lt {items : List Item} {i : Nat} {it : Item}
    (hget : items[i]? = some it) (hpend : it.status = ItemStatus.pending) :
    countNonPending items < items.length := by
  induction items generalizing i with
  | nil => simp at hget
  | cons a rest ih =>
    cases i with
    | zero =>
      simp only [List.getElem?_cons_zero, Option.some.injEq] at hget
      subst hget
      simp [countNonPending, List.countP_cons, bne_iff_ne, hpend]
      exact Nat.lt_succ_of_le (List.countP_le_length _)
    | succ n =>
      simp only [List.getElem?_cons_succ] at hget
      have := ih hget
      simp only [countNonPending, List.countP_cons, List.length_cons] at this ⊢
      have hle : (if (a.status != ItemStatus.pending) = true then 1 else 0) ≤ 1 := by
        split <;> omega
      omega

/-! Path-shape lemmas: the value of `process_batch` on each control path. -/

theorem process_batch_completed (env : BatchEnv) (st : Store)
    (h : st.job.status = "completed") :
    process_batch env st =
      { store := st
        resp := { ok := true, completed := true, processedOut := none, results := [] }
        trace := [] } := by
  unfold process_batch
  rw [if_pos h]

theorem process_batch_allTerminal (env : BatchEnv) (st : Store)
    (hstatus : st.job.status ≠ "completed")
    (hfind : findFirstPending st.job.items = none)
    (hupd : env.updateFails = false) :
    process_batch env st =
      { store := { st with job := { st.job with status := "completed" } }
        resp := { ok := true, completed := true, processedOut := none, results := [] }
        trace := [Ev.jobSave st.job.processed_items (some "completed")] } := by
  unfold process_batch
  rw [if_neg hstatus, hfind, hupd]
  simp

theorem process_batch_allTerminal_updFail (env : BatchEnv) (st : Store)
    (hstatus : st.job.status ≠ "completed")
    (hfind : findFirstPending st.job.items = none)
    (hupd : env.updateFails = true) :
    process_batch env st = { store := st, resp := errResp, trace := [] } := by
  unfold process_batch
  rw [if_neg hstatus, hfind, hupd]
  simp

theorem process_batch_success (env : BatchEnv) (st : Store) {i : Nat} {it : Item}
    (hstatus : st.job.status ≠ "completed")
    (hfind : findFirstPending st.job.items = some (i, it))
    (hupd : env.updateFails = false) :
    process_batch env st =
      { store :=
          { job := { st.job with
              items := st.job.items.set i { it with status := ItemStatus.completed }
              processed_items := st.job.processed_items + 1
              status := successStatus st.job }
            records := batchRecords env st it }
        resp := { ok := true, completed := successStatus st.job == "completed"
                  processedOut := some (st.job.processed_items + 1)
                  results := [batchBusiness env st.job it] }
        trace := listingTrace env.listingNavOk ++ emailTrace env ++ saveTrace env st it ++
          [Ev.jobSave (st.job.processed_items + 1) (some (successStatus st.job))] } := by
  unfold process_batch
  rw [if_neg hstatus, hfind, hupd]
  simp

theorem process_batch_updFail (env : BatchEnv) (st : Store) {i : Nat} {it : Item}
    (hstatus : st.job.status ≠ "completed")
    (hfind : findFirstPending st.job.items = some (i, it))
    (hupd : env.updateFails = true)
    (hretry : env.updateRetryFails = false) :
    process_batch env st =
      { store :=
          { job := { st.job with
              items := st.job.items.set i { it with status := ItemStatus.failed }
              processed_items := st.job.processed_items + 1 }
            records := batchRecords env st it }
        resp := errResp
        trace := listingTrace env.listingNavOk ++ emailTrace env ++ saveTrace env st it ++
          [Ev.jobSave (st.job.processed_items + 1) none] } := by
  unfold process_batch
  rw [if_neg hstatus, hfind, hupd, hretry]
  simp

theorem process_batch_updFail_retryFail (env : BatchEnv) (st : Store) {i : Nat} {it : Item}
    (hstatus : st.job.status ≠ "completed")
    (hfind : findFirstPending st.job.items = some (i, it))
    (hupd : env.updateFails = true)
    (hretry : env.updateRetryFails = true) :
    process_batch env st =
      { store := { st with records := batchRecords env st it }
        resp := errResp
        trace := listingTrace env.listingNavOk ++ emailTrace env ++ saveTrace env st it } := by
  unfold process_batch
  rw [if_neg hstatus, hfind, hupd, hretry]
  simp

/-! Facts about the actual call convention of the route's extraction sites. -/

theorem callWithKeyword_driver_phone (b : FieldOutcome) :
    callWithKeyword extract_phone_from_business_page_params "driver" b = FieldOutcome.exc := rfl

theorem callWithKeyword_driver_address (b : FieldOutcome) :
    callWithKeyword extract_address_from_business_page_params "driver" b = FieldOutcome.exc := rfl

theorem callWithKeyword_driver_website (b : FieldOutcome) :
    callWithKeyword extract_website_from_business_page_params "driver" b = FieldOutcome.exc := rfl

theorem callWithKeyword_driver_email (b : FieldOutcome) :
    callWithKeyword extract_email_from_website_params "driver" b = FieldOutcome.exc := rfl

theorem batchBusiness_routeEnv (nav : Bool) (pb ab wb eb : FieldOutcome)
    (skip lF cF uF rF : Bool) (job : SearchJob) (item : Item) :
    batchBusiness (routeEnv nav pb ab wb eb skip lF cF uF rF) job item =
      { user_id := job.user_id, company_name := item.name, website_url := item.url,
        source_url := job.search_url, phone := none, address := none, email := none } := by
  simp [batchBusiness, routeEnv, effectiveWebsite, listingField, fieldValue,
    callWithKeyword_driver_phone, callWithKeyword_driver_address,
    callWithKeyword_driver_website, callWithKeyword_driver_email,
    emailGuard, finalWebsite, businessData, ite_self]

theorem emailTrace_routeEnv (nav : Bool) (pb ab wb eb : FieldOutcome)
    (skip lF cF uF rF : Bool) :
    emailTrace (routeEnv nav pb ab wb eb skip lF cF uF rF) = [] := by
  simp [emailTrace, routeEnv, effectiveWebsite, listingField, fieldValue,
    callWithKeyword_driver_website, emailGuard, ite_self]

theorem recordProbe_mem_saveTrace (env : BatchEnv) (st : Store) (it : Item) :
    Ev.recordProbe ∈ saveTrace env st it := by
  unfold saveTrace
  split <;> simp

/-! Concrete sample environments and stores used to instantiate theorems. -/

/-- A failure-free environment: driver setup for the Maps page fails (so all
lookups yield nothing), the email stage would raise if reached, and no store
operation raises. -/
def quietEnv : BatchEnv :=
  { listingNavOk := false, phoneSite := FieldOutcome.exc, addressSite := FieldOutcome.exc,
    websiteSite := FieldOutcome.exc, emailSite := FieldOutcome.exc, skip_email := false,
    probeLookupFails := false, createFails := false, updateFails := false,
    updateRetryFails := false }

/-- An environment where the listing stage succeeded for phone, address and
website but the email stage (when reached) fails to acquire its session. -/
def listingOkEnv : BatchEnv :=
  { listingNavOk := true, phoneSite := FieldOutcome.ok (some "+15551234567"),
    addressSite := FieldOutcome.ok (some "1 Main St"),
    websiteSite := FieldOutcome.ok (some "http://example.com"),
    emailSite := FieldOutcome.exc, skip_email := false,
    probeLookupFails := false, createFails := false, updateFails := false,
    updateRetryFails := false }

/-- A finished one-item job with its record already saved. -/
def stDone : Store :=
  { job := { user_id := 1, search_url := "s", status := "completed",
             items := [{ name := "A", url := "u1", status := ItemStatus.completed }],
             total_items := 1, processed_items := 1 }
    records := [{ user_id := 1, company_name := "A", website_url := "u1", source_url := "s",
                  phone := none, address := none, email := none }] }

/-- A fresh three-item job as created by `init_search_job` for items A, B, C. -/
def stABC : Store :=
  { job := { user_id := 1, search_url := "s", status := "pending",
             items := [{ name := "A", url := "u1", status := ItemStatus.pending },
                       { name := "B", url := "u2", status := ItemStatus.pending },
                       { name := "C", url := "u3", status := ItemStatus.pending }],
             total_items := 3, processed_items := 0 }
    records := [] }

/-- A fresh one-item job with no records yet. -/
def stOne : Store :=
  { job := { user_id := 1, search_url := "s", status := "pending",
             items := [{ name := "A", url := "u1", status := ItemStatus.pending }],
             total_items := 1, processed_items := 0 }
    records := [] }

/-- C4: once a job's status is `completed`, any further `process_batch` call
returns immediately with `completed = true` and performs no mutation:
the persisted job (counters and every item status) and every record are
unchanged, and no external operation runs at all. -/
theorem C4_completed_idempotent (env : BatchEnv) (st : Store)
    (h : st.job.status = "completed") :
    (process_batch env st).store = st ∧
    (process_batch env st).resp.completed = true ∧
    (process_batch env st).resp.ok = true ∧
    (process_batch env st).trace = [] := by
  rw [process_batch_completed env st h]
  exact ⟨rfl, rfl, rfl, rfl⟩

/-- Witness for C4 at a concrete finished job. -/
theorem C4_completed_idempotent_witness :
    stDone.job.status = "completed" ∧
    ((process_batch quietEnv stDone).store = stDone ∧
      (process_batch quietEnv stDone).resp.completed = true ∧
      (process_batch quietEnv stDone).resp.ok = true ∧
      (process_batch quietEnv stDone).trace = []) :=
  ⟨rfl, C4_completed_idempotent quietEnv stDone rfl⟩

/-- C9: every `process_batch` call that succeeds advances exactly the first
pending item of the stored sequence, and for a job discovered with items
A, B, C three sequential calls process A, then B, then C, the third call
answering `completed = true`. -/
theorem C9_discovery_order :
    (∀ (env : BatchEnv) (st : Store) (i : Nat) (it : Item),
      st.job.status ≠ "completed" →
      findFirstPending st.job.items = some (i, it) →
      env.updateFails = false →
      (process_batch env st).store.job.items =
        st.job.items.set i { it with status := ItemStatus.completed }) ∧
    (process_batch quietEnv stABC).resp.results.map ScrapedRecord.company_name = ["A"] ∧
    (process_batch quietEnv
        (process_batch quietEnv stABC).store).resp.results.map ScrapedRecord.company_name
      = ["B"] ∧
    (process_batch quietEnv (process_batch quietEnv
        (process_batch quietEnv stABC).store).store).resp.results.map ScrapedRecord.company_name
      = ["C"] ∧
    (process_batch quietEnv (process_batch quietEnv
        (process_batch quietEnv stABC).store).store).resp.completed = true := by
  refine ⟨?_, by decide, by decide, by decide, by decide⟩
  intro env st i it h1 h2 h3
  rw [process_batch_success env st h1 h2 h3]

/-- Witness for C9's universally quantified part at the concrete job. -/
theorem C9_discovery_order_witness :
    stABC.job.status ≠ "completed" ∧
    findFirstPending stABC.job.items =
      some (0, { name := "A", url := "u1", status := ItemStatus.pending }) ∧
    quietEnv.updateFails = false ∧
    (process_batch quietEnv stABC).store.job.items =
      stABC.job.items.set 0
        { name := "A", url := "u1", status := ItemStatus.completed } :=
  ⟨by decide, by decide, rfl,
    C9_discovery_order.1 quietEnv stABC 0
      { name := "A", url := "u1", status := ItemStatus.pending }
      (by decide) (by decide) rfl⟩

/-- C10: a successful `process_batch` call changes exactly the selected item
— the first pending one, whose status goes from pending to a terminal
status — leaving every other item (name, url, status) and the job's
`total_items`, owner and `search_url` unchanged in the persisted job. -/
theorem C10_frame (env : BatchEnv) (st : Store) (i : Nat) (it : Item)
    (hstatus : st.job.status ≠ "completed")
    (hfind : findFirstPending st.job.items = some (i, it))
    (hupd : env.updateFails = false) :
    it.status = ItemStatus.pending ∧
    (process_batch env st).store.job.items =
      st.job.items.set i { it with status := ItemStatus.completed } ∧
    (∀ j, j ≠ i → (process_batch env st).store.job.items[j]? = st.job.items[j]?) ∧
    (process_batch env st).store.job.items[i]? =
      some { name := it.name, url := it.url, status := ItemStatus.completed } ∧
    (process_batch env st).store.job.total_items = st.job.total_items ∧
    (process_batch env st).store.job.user_id = st.job.user_id ∧
    (process_batch env st).store.job.search_url = st.job.search_url := by
  obtain ⟨hget, hpend⟩ := findFirstPending_spec hfind
  have hlen : i < st.job.items.length := (List.getElem?_eq_some.mp hget).1
  rw [process_batch_success env st hstatus hfind hupd]
  refine ⟨hpend, rfl, ?_, ?_, rfl, rfl, rfl⟩
  · intro j hj
    exact List.getElem?_set_ne (Ne.symm hj)
  · exact List.getElem?_set_eq_of_lt _ hlen

/-- Witness for C10 at a concrete three-item job. -/
theorem C10_frame_witness :
    stABC.job.status ≠ "completed" ∧
    findFirstPending stABC.job.items =
      some (0, { name := "A", url := "u1", status := ItemStatus.pending }) ∧
    quietEnv.updateFails = false ∧
    ({ name := "A", url := "u1", status := ItemStatus.pending } : Item).status
        = ItemStatus.pending ∧
    (process_batch quietEnv stABC).store.job.total_items = stABC.job.total_items :=
  ⟨by decide, by decide, rfl,
    (C10_frame quietEnv stABC 0 { name := "A", url := "u1", status := ItemStatus.pending }
      (by decide) (by decide) rfl).1,
    (C10_frame quietEnv stABC 0 { name := "A", url := "u1", status := ItemStatus.pending }
      (by decide) (by decide) rfl).2.2.2.2.1⟩

/-- C7: if the email stage fails entirely (its session is never acquired, it
raises, or it is skipped), the business record of the call still carries
exactly what the listing stage produced for phone and address, its email is
absent, the call succeeds, and the item is marked completed, not failed. -/
theorem C7_email_stage_isolation (env : BatchEnv) (st : Store) (i : Nat) (it : Item)
    (hstatus : st.job.status ≠ "completed")
    (hfind : findFirstPending st.job.items = some (i, it))
    (hemail : env.emailSite = FieldOutcome.exc ∨
      emailGuard env.skip_email (effectiveWebsite env) = false)
    (hupd : env.updateFails = false) :
    (process_batch env st).resp.ok = true ∧
    (process_batch env st).resp.results = [batchBusiness env st.job it] ∧
    (batchBusiness env st.job it).email = none ∧
    (batchBusiness env st.job it).phone = listingField env.listingNavOk env.phoneSite ∧
    (batchBusiness env st.job it).address = listingField env.listingNavOk env.addressSite ∧
    (process_batch env st).store.job.items =
      st.job.items.set i { it with status := ItemStatus.completed } := by
  rw [process_batch_success env st hstatus hfind hupd]
  refine ⟨rfl, rfl, ?_, rfl, rfl, rfl⟩
  unfold batchBusiness businessData
  rcases hemail with h | h
  · simp [h, fieldValue, ite_self]
  · simp [h]

/-- Witness for C7: the listing stage found a phone and an address, the email
stage raised, and the record of the call keeps phone and address with no
email while the call succeeds. -/
theorem C7_email_stage_isolation_witness :
    stOne.job.status ≠ "completed" ∧
    findFirstPending stOne.job.items =
      some (0, { name := "A", url := "u1", status := ItemStatus.pending }) ∧
    (listingOkEnv.emailSite = FieldOutcome.exc ∨
      emailGuard listingOkEnv.skip_email (effectiveWebsite listingOkEnv) = false) ∧
    listingOkEnv.updateFails = false ∧
    (batchBusiness listingOkEnv stOne.job
        { name := "A", url := "u1", status := ItemStatus.pending }).phone
      = some "+15551234567" ∧
    (batchBusiness listingOkEnv stOne.job
        { name := "A", url := "u1", status := ItemStatus.pending }).email = none ∧
    (process_batch listingOkEnv stOne).resp.ok = true := by
  refine ⟨by decide, by decide, Or.inl rfl, rfl, by decide, ?_, ?_⟩
  · exact (C7_email_stage_isolation listingOkEnv stOne 0
      { name := "A", url := "u1", status := ItemStatus.pending }
      (by decide) (by decide) (Or.inl rfl) rfl).2.2.1
  · exact (C7_email_stage_isolation listingOkEnv stOne 0
      { name := "A", url := "u1", status := ItemStatus.pending }
      (by decide) (by decide) (Or.inl rfl) rfl).1

/-- C8: with a valid search URL, an `init_search_job` call whose discovery
returns zero items fails and writes no job; otherwise it performs exactly
one job-store write, persisting a pending job whose items are all pending,
in discovery order, with `processed_items = 0`. -/
theorem C8_init_single_write (user_id : Nat) (url : String) (discovered : List Business)
    (hurl : is_google_maps_search_url url = true) :
    (discovered = [] →
      (init_search_job user_id url discovered).writes = [] ∧
      (init_search_job user_id url discovered).ok = false) ∧
    (discovered ≠ [] →
      (init_search_job user_id url discovered).writes =
        [{ user_id := user_id, search_url := url, status := "pending",
           items := discovered.map pendingItem,
           total_items := (discovered.map pendingItem).length,
           processed_items := 0 }] ∧
      (∀ itm ∈ discovered.map pendingItem, itm.status = ItemStatus.pending) ∧
      (discovered.map pendingItem).map Item.name = discovered.map Business.name ∧
      (init_search_job user_id url discovered).ok = true) := by
  unfold init_search_job
  rw [hurl]
  constructor
  · intro h
    subst h
    simp
  · intro h
    have hne : discovered.isEmpty = false := by
      simpa [List.isEmpty_iff] using h
    rw [hne]
    refine ⟨rfl, ?_, ?_, rfl⟩
    · intro itm hm
      obtain ⟨b, _, rfl⟩ := List.mem_map.mp hm
      rfl
    · rw [List.map_map]
      rfl

/-- Witness for C8 at a one-business discovery and a valid Maps search URL. -/
theorem C8_init_single_write_witness :
    is_google_maps_search_url "https://www.google.com/maps/search/bakeries" = true ∧
    ([({ name := "A", url := "u1" } : Business)] ≠ []) ∧
    (init_search_job 1 "https://www.google.com/maps/search/bakeries"
        [{ name := "A", url := "u1" }]).writes =
      [{ user_id := 1, search_url := "https://www.google.com/maps/search/bakeries",
         status := "pending",
         items := [{ name := "A", url := "u1", status := ItemStatus.pending }],
         total_items := 1, processed_items := 0 }] := by
  refine ⟨by decide, by decide, ?_⟩
  exact ((C8_init_single_write 1 "https://www.google.com/maps/search/bakeries"
    [{ name := "A", url := "u1" }] (by decide)).2 (by decide)).1

/-- The failure-free environment except that `SearchJob.update_progress`
raises on its first call of the batch and succeeds on the recovery call. -/
def updFailEnv : BatchEnv := { quietEnv with updateFails := true }

/-- A two-item job satisfying the state invariant: the first item done, the
second pending, one item counted, status active. -/
def stC3 : Store :=
  { job := { user_id := 1, search_url := "s", status := "active",
             items := [{ name := "A", url := "u1", status := ItemStatus.completed },
                       { name := "B", url := "u2", status := ItemStatus.pending }],
             total_items := 2, processed_items := 1 }
    records := [] }

/-- C3 counterexample: starting from a job satisfying the claimed invariant,
a `process_batch` call that takes the error path (the progress write raises
once, the recovery write of the `except` handler succeeds) persists a job
with `processed_items = total_items` whose status is still not `completed`:
the error path omits the status argument, so the biconditional half of the
invariant fails after that call. -/
theorem C3_status_invariant_cex :
    JobInv stC3.job ∧
    stC3.job.total_items = stC3.job.items.length ∧
    (process_batch updFailEnv stC3).store.job.processed_items =
      (process_batch updFailEnv stC3).store.job.total_items ∧
    (process_batch updFailEnv stC3).store.job.status ≠ "completed" := by
  refine ⟨⟨by decide, by decide⟩, by decide, by decide, by decide⟩

/-- C3 amended: after every `process_batch` call, `processed_items` equals
the count of non-pending items (on every path, including the error path);
the full invariant — additionally `status = completed ⟺ processed_items =
total_items` — is preserved by every call on which the job-store update
does not raise. After an error-path call the biconditional can be false
until the next successful call restores it. -/
theorem C3_invariant_amended (env : BatchEnv) (st : Store)
    (hinv : JobInv st.job) (hlen : st.job.total_items = st.job.items.length) :
    (process_batch env st).store.job.processed_items =
        countNonPending (process_batch env st).store.job.items ∧
    (env.updateFails = false → JobInv (process_batch env st).store.job) ∧
    (process_batch env st).store.job.total_items =
      (process_batch env st).store.job.items.length := by
  obtain ⟨hcount, hbic⟩ := hinv
  by_cases hc : st.job.status = "completed"
  · rw [process_batch_completed env st hc]
    exact ⟨hcount, fun _ => ⟨hcount, hbic⟩, hlen⟩
  · cases hfind : findFirstPending st.job.items with
    | none =>
      have hall := findFirstPending_none hfind
      cases hupd : env.updateFails with
      | false =>
        rw [process_batch_allTerminal env st hc hfind hupd]
        have hpt : st.job.processed_items = st.job.total_items := by
          rw [hcount, hall, hlen]
        exact ⟨hcount, fun _ => ⟨hcount, by simp [hpt]⟩, hlen⟩
      | true =>
        rw [process_batch_allTerminal_updFail env st hc hfind hupd]
        exact ⟨hcount, ⟨fun hf => Bool.noConfusion hf, hlen⟩⟩
    | some p =>
      obtain ⟨i, it⟩ := p
      obtain ⟨hget, hpend⟩ := findFirstPending_spec hfind
      have hsetC : countNonPending
          (st.job.items.set i { it with status := ItemStatus.completed }) =
          countNonPending st.job.items + 1 :=
        countNonPending_set hget hpend (by simp)
      have hsetF : countNonPending
          (st.job.items.set i { it with status := ItemStatus.failed }) =
          countNonPending st.job.items + 1 :=
        countNonPending_set hget hpend (by simp)
      have hlt := countNonPending_lt hget hpend
      cases hupd : env.updateFails with
      | false =>
        rw [process_batch_success env st hc hfind hupd]
        refine ⟨?_, fun _ => ⟨?_, ?_⟩, ?_⟩
        · show st.job.processed_items + 1 = countNonPending
            (st.job.items.set i { it with status := ItemStatus.completed })
          rw [hsetC, hcount]
        · show st.job.processed_items + 1 = countNonPending
            (st.job.items.set i { it with status := ItemStatus.completed })
          rw [hsetC, hcount]
        · show successStatus st.job = "completed" ↔
            st.job.processed_items + 1 = st.job.total_items
          unfold successStatus
          by_cases hle : st.job.total_items ≤ st.job.processed_items + 1
          · rw [if_pos hle]
            have heq : st.job.processed_items + 1 = st.job.total_items := by omega
            simp [heq]
          · rw [if_neg hle]
            have hne : ("active" : String) ≠ "completed" := by decide
            simp [hne]
            omega
        · show st.job.total_items =
            (st.job.items.set i { it with status := ItemStatus.completed }).length
          rw [List.length_set]
          exact hlen
      | true =>
        cases hretry : env.updateRetryFails with
        | false =>
          rw [process_batch_updFail env st hc hfind hupd hretry]
          refine ⟨?_, ⟨fun hf => Bool.noConfusion hf, ?_⟩⟩
          · show st.job.processed_items + 1 = countNonPending
              (st.job.items.set i { it with status := ItemStatus.failed })
            rw [hsetF, hcount]
          · show st.job.total_items =
              (st.job.items.set i { it with status := ItemStatus.failed }).length
            rw [List.length_set]
            exact hlen
        | true =>
          rw [process_batch_updFail_retryFail env st hc hfind hupd hretry]
          exact ⟨hcount, ⟨fun hf => Bool.noConfusion hf, hlen⟩⟩

/-- Witness for C3's amended invariant at a fresh three-item job. -/
theorem C3_invariant_amended_witness :
    JobInv stABC.job ∧
    stABC.job.total_items = stABC.job.items.length ∧
    ((process_batch quietEnv stABC).store.job.processed_items =
        countNonPending (process_batch quietEnv stABC).store.job.items ∧
      (quietEnv.updateFails = false → JobInv (process_batch quietEnv stABC).store.job) ∧
      (process_batch quietEnv stABC).store.job.total_items =
        (process_batch quietEnv stABC).store.job.items.length) :=
  ⟨⟨by decide, by decide⟩, by decide,
    C3_invariant_amended quietEnv stABC ⟨by decide, by decide⟩ (by decide)⟩

/-! Trace-membership helpers. -/

theorem recordCreate_not_mem_listingTrace (nav : Bool) (b : ScrapedRecord) :
    Ev.recordCreate b ∉ listingTrace nav := by
  unfold listingTrace
  split <;> simp

theorem recordCreate_not_mem_emailTrace (env : BatchEnv) (b : ScrapedRecord) :
    Ev.recordCreate b ∉ emailTrace env := by
  unfold emailTrace
  split <;> simp

theorem emailNav_not_mem_listingTrace (nav : Bool) :
    Ev.emailNav ∉ listingTrace nav := by
  unfold listingTrace
  split <;> simp

theorem emailNav_not_mem_saveTrace (env : BatchEnv) (st : Store) (it : Item) :
    Ev.emailNav ∉ saveTrace env st it := by
  unfold saveTrace
  split <;> simp

/-- The failure-free environment except that `ScrapedData.create` raises. -/
def createFailEnv : BatchEnv := { quietEnv with createFails := true }

/-- C6 counterexample: a record-store write failure during persistence is
swallowed by the save block's own `except` handler: the call succeeds
(HTTP 200, no error surfaced to the caller), the item is marked completed
— not failed — and no record is persisted. -/
theorem C6_store_write_failure_swallowed_cex :
    createFailEnv.createFails = true ∧
    (process_batch createFailEnv stOne).resp.ok = true ∧
    (process_batch createFailEnv stOne).store.job.items =
      [{ name := "A", url := "u1", status := ItemStatus.completed }] ∧
    (process_batch createFailEnv stOne).store.records = [] := by
  refine ⟨rfl, by decide, by decide, by decide⟩

/-- C6 amended: a record-store write failure during persistence is swallowed
(the item is still marked completed and the call succeeds with no record
written); only an error outside both the field-lookup and the
record-persistence boundaries — here the job-store progress write raising —
marks the item failed (when the recovery write succeeds), still advances
`processed_items`, and surfaces the error to the caller of that call. -/
theorem C6_error_paths (env : BatchEnv) (st : Store) (i : Nat) (it : Item)
    (hstatus : st.job.status ≠ "completed")
    (hfind : findFirstPending st.job.items = some (i, it)) :
    (env.createFails = true → env.updateFails = false →
      (process_batch env st).resp.ok = true ∧
      (process_batch env st).store.job.items =
        st.job.items.set i { it with status := ItemStatus.completed } ∧
      (process_batch env st).store.records = st.records) ∧
    (env.updateFails = true → env.updateRetryFails = false →
      (process_batch env st).resp.ok = false ∧
      (process_batch env st).store.job.items =
        st.job.items.set i { it with status := ItemStatus.failed } ∧
      (process_batch env st).store.job.processed_items = st.job.processed_items + 1) := by
  constructor
  · intro hcf hupd
    rw [process_batch_success env st hstatus hfind hupd]
    refine ⟨rfl, rfl, ?_⟩
    show batchRecords env st it = st.records
    unfold batchRecords batchCreated
    rw [hcf]
    simp
  · intro hupd hretry
    rw [process_batch_updFail env st hstatus hfind hupd hretry]
    exact ⟨rfl, rfl, rfl⟩

/-- Witness for C6's create-failure half at a concrete one-item job. -/
theorem C6_error_paths_witness :
    stOne.job.status ≠ "completed" ∧
    findFirstPending stOne.job.items =
      some (0, { name := "A", url := "u1", status := ItemStatus.pending }) ∧
    createFailEnv.createFails = true ∧
    createFailEnv.updateFails = false ∧
    ((process_batch createFailEnv stOne).resp.ok = true ∧
      (process_batch createFailEnv stOne).store.job.items =
        stOne.job.items.set 0
          { name := "A", url := "u1", status := ItemStatus.completed } ∧
      (process_batch createFailEnv stOne).store.records = stOne.records) :=
  ⟨by decide, by decide, rfl, rfl,
    (C6_error_paths createFailEnv stOne 0
      { name := "A", url := "u1", status := ItemStatus.pending }
      (by decide) (by decide)).1 rfl rfl⟩

/-- The failure-free environment except that the probe's store lookup raises
(caught inside `check_existing_business`, which then reports no match). -/
def lookupFailEnv : BatchEnv := { quietEnv with probeLookupFails := true }

/-- A one-item job whose item already has a matching record in the store. -/
def stC5 : Store :=
  { job := { user_id := 1, search_url := "s", status := "pending",
             items := [{ name := "A", url := "u1", status := ItemStatus.pending }],
             total_items := 1, processed_items := 0 }
    records := [{ user_id := 1, company_name := "A", website_url := "u1", source_url := "s",
                  phone := none, address := none, email := none }] }

/-- C5 counterexample: when the probe's store lookup errors,
`check_existing_business` swallows the error and reports no match, so a
second record with the same identity key is created: after the call the
store holds two records for the key (user 1, "A", "u1"). -/
theorem C5_duplicate_on_probe_error_cex :
    stC5.records.countP (fun r => r.user_id == 1 && r.company_name == "A" &&
      r.website_url == "u1") = 1 ∧
    lookupFailEnv.probeLookupFails = true ∧
    (process_batch lookupFailEnv stC5).store.records.countP
      (fun r => r.user_id == 1 && r.company_name == "A" && r.website_url == "u1") = 2 := by
  refine ⟨by decide, rfl, by decide⟩

/-- C5 amended: record creation is always preceded by the dedup probe (a
create event in any call's trace implies a probe event in it), and creation
is skipped whenever the probe's lookup succeeds and finds a matching record
among the owner's 1000 most recent rows; a lookup error (or a match beyond
that window) defeats the guard. -/
theorem C5_dedup_guard :
    (∀ (env : BatchEnv) (st : Store) (i : Nat) (it : Item) (r : ScrapedRecord),
      st.job.status ≠ "completed" →
      findFirstPending st.job.items = some (i, it) →
      env.probeLookupFails = false →
      (find_by_user_id st.records st.job.user_id 1000).find?
        (fun x => x.company_name == (batchBusiness env st.job it).company_name &&
                  x.website_url == (batchBusiness env st.job it).website_url) = some r →
      (process_batch env st).store.records = st.records ∧
      (∀ b, Ev.recordCreate b ∉ (process_batch env st).trace)) ∧
    (∀ (env : BatchEnv) (st : Store) (b : ScrapedRecord),
      Ev.recordCreate b ∈ (process_batch env st).trace →
      Ev.recordProbe ∈ (process_batch env st).trace) := by
  constructor
  · intro env st i it r hstatus hfind hlf hmatch
    have hprobe : batchProbe env st it = some r := by
      unfold batchProbe check_existing_business
      rw [hlf]
      simpa using hmatch
    have hcre : batchCreated env st it = false := by
      unfold batchCreated
      rw [hprobe]
      rfl
    have hrec : batchRecords env st it = st.records := by
      unfold batchRecords
      rw [hcre]
      simp
    have hsave : saveTrace env st it = [Ev.recordProbe] := by
      unfold saveTrace
      rw [hcre]
      simp
    cases hupd : env.updateFails with
    | false =>
      rw [process_batch_success env st hstatus hfind hupd]
      refine ⟨hrec, fun b => ?_⟩
      simp [hsave, List.mem_append, recordCreate_not_mem_listingTrace,
        recordCreate_not_mem_emailTrace]
    | true =>
      cases hretry : env.updateRetryFails with
      | false =>
        rw [process_batch_updFail env st hstatus hfind hupd hretry]
        refine ⟨hrec, fun b => ?_⟩
        simp [hsave, List.mem_append, recordCreate_not_mem_listingTrace,
          recordCreate_not_mem_emailTrace]
      | true =>
        rw [process_batch_updFail_retryFail env st hstatus hfind hupd hretry]
        refine ⟨hrec, fun b => ?_⟩
        simp [hsave, List.mem_append, recordCreate_not_mem_listingTrace,
          recordCreate_not_mem_emailTrace]
  · intro env st b hmem
    by_cases hc : st.job.status = "completed"
    · rw [process_batch_completed env st hc] at hmem
      simp at hmem
    · cases hfind : findFirstPending st.job.items with
      | none =>
        cases hupd : env.updateFails with
        | false =>
          rw [process_batch_allTerminal env st hc hfind hupd] at hmem
          simp at hmem
        | true =>
          rw [process_batch_allTerminal_updFail env st hc hfind hupd] at hmem
          simp at hmem
      | some p =>
        obtain ⟨i, it⟩ := p
        cases hupd : env.updateFails with
        | false =>
          rw [process_batch_success env st hc hfind hupd]
          simp [List.mem_append, recordProbe_mem_saveTrace]
        | true =>
          cases hretry : env.updateRetryFails with
          | false =>
            rw [process_batch_updFail env st hc hfind hupd hretry]
            simp [List.mem_append, recordProbe_mem_saveTrace]
          | true =>
            rw [process_batch_updFail_retryFail env st hc hfind hupd hretry]
            simp [List.mem_append, recordProbe_mem_saveTrace]

/-- Witness for C5's guard at a concrete store already holding the record. -/
theorem C5_dedup_guard_witness :
    stC5.job.status ≠ "completed" ∧
    findFirstPending stC5.job.items =
      some (0, { name := "A", url := "u1", status := ItemStatus.pending }) ∧
    quietEnv.probeLookupFails = false ∧
    (find_by_user_id stC5.records stC5.job.user_id 1000).find?
      (fun x => x.company_name == (batchBusiness quietEnv stC5.job
          { name := "A", url := "u1", status := ItemStatus.pending }).company_name &&
        x.website_url == (batchBusiness quietEnv stC5.job
          { name := "A", url := "u1", status := ItemStatus.pending }).website_url) =
      some { user_id := 1, company_name := "A", website_url := "u1", source_url := "s",
             phone := none, address := none, email := none } ∧
    (process_batch quietEnv stC5).store.records = stC5.records :=
  ⟨by decide, by decide, rfl, by decide,
    (C5_dedup_guard.1 quietEnv stC5 0
      { name := "A", url := "u1", status := ItemStatus.pending }
      { user_id := 1, company_name := "A", website_url := "u1", source_url := "s",
        phone := none, address := none, email := none }
      (by decide) (by decide) rfl (by decide)).1⟩

/-- The composed environment of an actual run with the listing page reachable
and callee bodies that would have produced data, had the call sites not
passed the unsupported `driver` keyword. -/
def envRoute : BatchEnv :=
  routeEnv true (FieldOutcome.ok (some "+15551234567"))
    (FieldOutcome.ok (some "1 Main St"))
    (FieldOutcome.ok (some "http://example.com"))
    (FieldOutcome.ok (some "x@example.com")) false false false false false

/-- C1 counterexample: on a crash state (the record persisted, the item still
pending) the next `process_batch` call does run extraction — the listing
navigation and the phone lookup appear in its trace — contrary to the
claimed probe-before-extraction skip; it does converge (no second record,
item marked completed), but only after re-scraping. -/
theorem C1_extraction_not_skipped_cex :
    stC5.records.countP (fun r => r.user_id == 1 && r.company_name == "A" &&
      r.website_url == "u1") = 1 ∧
    Ev.listingNav ∈ (process_batch envRoute stC5).trace ∧
    Ev.lookupPhone ∈ (process_batch envRoute stC5).trace ∧
    (process_batch envRoute stC5).store.records = stC5.records ∧
    (process_batch envRoute stC5).store.job.items =
      [{ name := "A", url := "u1", status := ItemStatus.completed }] := by
  refine ⟨by decide, by decide, by decide, by decide, by decide⟩

/-- C1 amended: the dedup probe runs after extraction and before record
creation. When a record with the item's key already exists within the
probe's window and the lookup succeeds, the call creates no second record
and marks the item completed — so a crash that persisted the record but not
the item status converges on the next call — but extraction is re-run, not
skipped: with the listing page reachable, the phone lookup is in the trace. -/
theorem C1_dedup_after_extraction (nav : Bool) (pb ab wb eb : FieldOutcome)
    (skip : Bool) (env : BatchEnv) (st : Store) (i : Nat) (it : Item) (r : ScrapedRecord)
    (henv : env = routeEnv nav pb ab wb eb skip false false false false)
    (hstatus : st.job.status ≠ "completed")
    (hfind : findFirstPending st.job.items = some (i, it))
    (hmatch : (find_by_user_id st.records st.job.user_id 1000).find?
        (fun x => x.company_name == it.name && x.website_url == it.url) = some r) :
    (process_batch env st).store.records = st.records ∧
    (process_batch env st).store.job.items =
      st.job.items.set i { it with status := ItemStatus.completed } ∧
    (nav = true → Ev.lookupPhone ∈ (process_batch env st).trace) ∧
    (∀ b, Ev.recordCreate b ∉ (process_batch env st).trace) := by
  subst henv
  have hupd : (routeEnv nav pb ab wb eb skip false false false false).updateFails = false := rfl
  have hb := batchBusiness_routeEnv nav pb ab wb eb skip false false false false st.job it
  have hlf : (routeEnv nav pb ab wb eb skip false false false false).probeLookupFails
      = false := rfl
  have hprobe : batchProbe (routeEnv nav pb ab wb eb skip false false false false) st it
      = some r := by
    unfold batchProbe check_existing_business
    rw [hb, hlf]
    simpa using hmatch
  have hcre : batchCreated (routeEnv nav pb ab wb eb skip false false false false) st it
      = false := by
    unfold batchCreated
    rw [hprobe]
    rfl
  have hrec : batchRecords (routeEnv nav pb ab wb eb skip false false false false) st it
      = st.records := by
    unfold batchRecords
    rw [hcre]
    simp
  have hsave : saveTrace (routeEnv nav pb ab wb eb skip false false false false) st it
      = [Ev.recordProbe] := by
    unfold saveTrace
    rw [hcre]
    simp
  rw [process_batch_success _ st hstatus hfind hupd]
  refine ⟨hrec, rfl, ?_, fun b => ?_⟩
  · intro hnav
    simp [hsave, emailTrace_routeEnv, listingTrace, hnav, List.mem_append]
    exact Or.inl rfl
  · simp [hsave, emailTrace_routeEnv, List.mem_append, recordCreate_not_mem_listingTrace]

/-- Witness for C1's amended statement on the concrete crash state. -/
theorem C1_dedup_after_extraction_witness :
    stC5.job.status ≠ "completed" ∧
    findFirstPending stC5.job.items =
      some (0, { name := "A", url := "u1", status := ItemStatus.pending }) ∧
    (find_by_user_id stC5.records stC5.job.user_id 1000).find?
      (fun x => x.company_name == "A" && x.website_url == "u1") =
      some { user_id := 1, company_name := "A", website_url := "u1", source_url := "s",
             phone := none, address := none, email := none } ∧
    ((process_batch envRoute stC5).store.records = stC5.records ∧
      (process_batch envRoute stC5).store.job.items =
        stC5.job.items.set 0
          { name := "A", url := "u1", status := ItemStatus.completed } ∧
      (true = true → Ev.lookupPhone ∈ (process_batch envRoute stC5).trace) ∧
      (∀ b, Ev.recordCreate b ∉ (process_batch envRoute stC5).trace)) :=
  ⟨by decide, by decide, by decide,
    C1_dedup_after_extraction true (FieldOutcome.ok (some "+15551234567"))
      (FieldOutcome.ok (some "1 Main St")) (FieldOutcome.ok (some "http://example.com"))
      (FieldOutcome.ok (some "x@example.com")) false envRoute stC5 0
      { name := "A", url := "u1", status := ItemStatus.pending }
      { user_id := 1, company_name := "A", website_url := "u1", source_url := "s",
        phone := none, address := none, email := none }
      rfl (by decide) (by decide) (by decide)⟩

/-- C2 counterexample: with `skip_email` off and a callee that would have
returned a website and an email, the email lookup is never invoked — no
email-stage event appears in the trace — because the website variable is
already `None` when its guard is evaluated; so not all four lookups raise
the claimed `TypeError` (the fourth never runs at all). -/
theorem C2_email_lookup_not_invoked_cex :
    envRoute.skip_email = false ∧
    Ev.lookupWebsite ∈ (process_batch envRoute stOne).trace ∧
    Ev.emailNav ∉ (process_batch envRoute stOne).trace ∧
    (process_batch envRoute stOne).store.records =
      [{ user_id := 1, company_name := "A", website_url := "u1", source_url := "s",
         phone := none, address := none, email := none }] ∧
    (process_batch envRoute stOne).resp.ok = true := by
  refine ⟨rfl, by decide, by decide, by decide, by decide⟩

/-- C2 amended: the three listing-page call sites pass a `driver` keyword
their signatures reject, so each raises `TypeError` (swallowed); the email
lookup is never invoked because the website is `None`; consequently every
record persisted by the call has phone, address and email `None` and
`website_url` equal to the item's url, and the item is still completed. -/
theorem C2_driver_kwarg_fields_none (nav : Bool) (pb ab wb eb : FieldOutcome)
    (skip lF cF : Bool) (env : BatchEnv) (st : Store) (i : Nat) (it : Item)
    (henv : env = routeEnv nav pb ab wb eb skip lF cF false false)
    (hstatus : st.job.status ≠ "completed")
    (hfind : findFirstPending st.job.items = some (i, it)) :
    (∀ b, callWithKeyword extract_phone_from_business_page_params "driver" b
      = FieldOutcome.exc) ∧
    (∀ b, callWithKeyword extract_address_from_business_page_params "driver" b
      = FieldOutcome.exc) ∧
    (∀ b, callWithKeyword extract_website_from_business_page_params "driver" b
      = FieldOutcome.exc) ∧
    Ev.emailNav ∉ (process_batch env st).trace ∧
    (process_batch env st).resp.results =
      [{ user_id := st.job.user_id, company_name := it.name, website_url := it.url,
         source_url := st.job.search_url, phone := none, address := none, email := none }] ∧
    ((process_batch env st).store.records = st.records ∨
      (process_batch env st).store.records =
        { user_id := st.job.user_id, company_name := it.name, website_url := it.url,
          source_url := st.job.search_url, phone := none, address := none, email := none }
          :: st.records) ∧
    (process_batch env st).store.job.items =
      st.job.items.set i { it with status := ItemStatus.completed } := by
  subst henv
  have hupd : (routeEnv nav pb ab wb eb skip lF cF false false).updateFails = false := rfl
  have hb := batchBusiness_routeEnv nav pb ab wb eb skip lF cF false false st.job it
  rw [process_batch_success _ st hstatus hfind hupd]
  refine ⟨callWithKeyword_driver_phone, callWithKeyword_driver_address,
    callWithKeyword_driver_website, ?_, ?_, ?_, rfl⟩
  · simp [emailTrace_routeEnv, List.mem_append, emailNav_not_mem_listingTrace,
      emailNav_not_mem_saveTrace]
  · rw [hb]
  · show batchRecords (routeEnv nav pb ab wb eb skip lF cF false false) st it = _ ∨
      batchRecords (routeEnv nav pb ab wb eb skip lF cF false false) st it = _
    unfold batchRecords
    by_cases hcre : batchCreated (routeEnv nav pb ab wb eb skip lF cF false false) st it = true
    · right
      rw [if_pos hcre, hb]
    · left
      rw [if_neg hcre]

/-- Witness for C2's amended statement on a fresh one-item job. -/
theorem C2_driver_kwarg_fields_none_witness :
    stOne.job.status ≠ "completed" ∧
    findFirstPending stOne.job.items =
      some (0, { name := "A", url := "u1", status := ItemStatus.pending }) ∧
    (Ev.emailNav ∉ (process_batch envRoute stOne).trace ∧
      (process_batch envRoute stOne).resp.results =
        [{ user_id := 1, company_name := "A", website_url := "u1", source_url := "s",
           phone := none, address := none, email := none }]) :=
  ⟨by decide, by decide,
    ⟨(C2_driver_kwarg_fields_none true (FieldOutcome.ok (some "+15551234567"))
        (FieldOutcome.ok (some "1 Main St")) (FieldOutcome.ok (some "http://example.com"))
        (FieldOutcome.ok (some "x@example.com")) false false false envRoute stOne 0
        { name := "A", url := "u1", status := ItemStatus.pending }
        rfl (by decide) (by decide)).2.2.2.1,
      (C2_driver_kwarg_fields_none true (FieldOutcome.ok (some "+15551234567"))
        (FieldOutcome.ok (some "1 Main St")) (FieldOutcome.ok (some "http://example.com"))
        (FieldOutcome.ok (some "x@example.com")) false false false envRoute stOne 0
        { name := "A", url := "u1", status := ItemStatus.pending }
        rfl (by decide) (by decide)).2.2.2.2.1⟩⟩

end Xtractor
